import Mathlib

/-!
Shallow embedding of the training driver `generate.py` (together with the
constants of `config.py`) of the talking-heads repository.

Tensors are modelled as lists of rationals, embedding vectors as functions
`ℕ → ℚ`.  The networks `Embedder`, `Generator` and `Discriminator` live in
`network.py`, which is not part of the sources under verification; they are
therefore abstracted as opaque function parameters bundled in a `Networks`
record.  Side effects of the training loop (optimizer steps, discriminator
calls, checkpointing, image export) are recorded as an explicit event trace.
-/

namespace TalkingHeads

/-- Tensors (frames, landmark rasters) as flat lists of rationals. -/
abbrev Tensor : Type := List ℚ

/-- Embedding vectors, indexed componentwise. -/
abbrev EmbVec : Type := ℕ → ℚ

/- Constants from `config.py` that the driver uses. -/
namespace config

def MODELS_DIR : String := "/home/ubuntu/k32s10000/models"

def GENERATED_DIR : String := "/home/ubuntu/k32s10000/generated_img"

def EPOCHS : ℕ := 100

def LEARNING_RATE_E_G : ℚ := 5e-5

def LEARNING_RATE_D : ℚ := 2e-4

end config

/-- One dataset sample: a dict with a `frame` and its `landmarks`. -/
structure FrameData where
  frame : Tensor
  landmarks : Tensor
  deriving DecidableEq

/-- The three networks of `network.py`, abstracted: the embedder `E`, the
generator `G`, the discriminator `D` (returning a realness score and its
activations), and the discriminator's projection matrix `W`, seen as the map
from an identity index to its column. -/
structure Networks where
  Efn : Tensor → Tensor → EmbVec
  Gfn : Tensor → EmbVec → Tensor
  Dfn : Tensor → Tensor → ℕ → ℚ × ℚ
  W : ℕ → EmbVec

/-- Observable effects of one pass of the `meta_train` training loop. -/
inductive Event where
  | stepEG : Event
  | stepD : Event
  | zeroEG : Event
  | zeroD : Event
  | backward : Event
  | callD (identity : ℕ) : Event
  | callLossEG (colIndex : ℕ) : Event
  | logProgress : Event
  | mkdirGenerated : Event
  | saveImage (dir : String) (suffix : String) (data : Tensor) : Event
  | saveModel (modelName : String) (useRunStart : Bool) : Event
  deriving DecidableEq

/-- `torch.stack(vs).mean(dim=0)`: the componentwise arithmetic mean of a
list of vectors. -/
def vecMean (vs : List EmbVec) : EmbVec :=
  fun j => (vs.map fun v => v j).sum / vs.length

/-- The straight-line effect trace of one batch of `meta_train`
(`generate.py`, lines 100-146): discriminator calls on `x_hat` and `x_t`,
zeroing of both optimizers, the `E`/`G` loss (receiving column `i` of `D.W`),
a backward pass, a step of each optimizer; then the second discriminator-only
update; then the periodic progress log, sample-image export and
checkpointing. -/
def batch_events (i batch_num : ℕ) (generated_dir_exists : Bool)
    (x_t x_hat : Tensor) : List Event :=
  [Event.callD i, Event.callD i, Event.zeroEG, Event.zeroD,
   Event.callLossEG i, Event.backward, Event.stepEG, Event.stepD] ++
  [Event.callD i, Event.callD i, Event.zeroD, Event.backward, Event.stepD] ++
  (if (batch_num + 1) % 100 = 0 ∨ batch_num = 0 then [Event.logProgress] else []) ++
  (if (batch_num + 1) % 100 = 0 then
      (if generated_dir_exists then [] else [Event.mkdirGenerated]) ++
      [Event.saveImage config.GENERATED_DIR "_x.png" x_t,
       Event.saveImage config.GENERATED_DIR "_x_hat.png" x_hat]
    else []) ++
  (if (batch_num + 1) % 2000 = 0 then
      [Event.saveModel "Embedder" false, Event.saveModel "Generator" false,
       Event.saveModel "Discriminator" false]
    else [])

/-- The values a batch of `meta_train` computes, together with its trace. -/
structure BatchResult where
  t : FrameData
  remaining : List FrameData
  e_hat : EmbVec
  x_hat : Tensor
  wColumn : EmbVec
  events : List Event

/-- One iteration of the inner loop of `meta_train` (`generate.py`,
lines 81-146) on the sample `(i, video)`.  `video.pop()` removes the last
frame (raising on an empty video, hence `Option`); the embedder runs over the
remaining frames and `torch.stack` of their outputs raises when that list is
empty; the mean embedding drives the generator on frame `t`'s landmarks. -/
def meta_train_batch (net : Networks) (i batch_num : ℕ)
    (generated_dir_exists : Bool) (video : List FrameData) :
    Option BatchResult :=
  match video.getLast? with
  | none => none
  | some t =>
      let rest := video.dropLast
      let e_vectors := rest.map fun s => net.Efn s.frame s.landmarks
      if e_vectors.isEmpty then none
      else
        let e_hat := vecMean e_vectors
        let x_t := t.frame
        let y_t := t.landmarks
        let x_hat := net.Gfn y_t e_hat
        some { t := t
               remaining := rest
               e_hat := e_hat
               x_hat := x_hat
               wColumn := net.W i
               events := batch_events i batch_num generated_dir_exists x_t x_hat }

/-- The inner loop of `meta_train` over the enumerated dataset, threading the
batch counter and whether `GENERATED_DIR` exists (it does once a batch has
created it). -/
def meta_train_batches (net : Networks) :
    ℕ → Bool → List (ℕ × List FrameData) → Option (List Event)
  | _, _, [] => some []
  | batch_num, dir_exists, (i, video) :: rest =>
      match meta_train_batch net i batch_num dir_exists video with
      | none => none
      | some r =>
          match meta_train_batches net (batch_num + 1)
              (dir_exists || decide ((batch_num + 1) % 100 = 0)) rest with
          | none => none
          | some evs => some (r.events ++ evs)

/-- One epoch of `meta_train` (`generate.py`, lines 73-152): all batches in
order, then the three end-of-epoch `save_model` calls, which pass `run_start`
as the time for the checkpoint filename. -/
def meta_train_epoch (net : Networks) (generated_dir_exists : Bool)
    (batches : List (ℕ × List FrameData)) : Option (List Event) :=
  (meta_train_batches net 0 generated_dir_exists batches).map fun evs =>
    evs ++ [Event.saveModel "Embedder" true, Event.saveModel "Generator" true,
            Event.saveModel "Discriminator" true]

/-- An Adam optimizer as constructed in `meta_train`: the parameters it
manages and its learning rate. -/
structure AdamOptimizer (P : Type) where
  params : List P
  lr : ℚ

/-- The network/optimizer construction of `meta_train` (`generate.py`,
lines 49-65): the three networks, one Adam over the embedder's parameters
followed by the generator's with rate `LEARNING_RATE_E_G`, and one Adam over
the discriminator's parameters with rate `LEARNING_RATE_D`. -/
structure TrainSetup (P : Type) where
  networks : List String
  optimizer_E_G : AdamOptimizer P
  optimizer_D : AdamOptimizer P

def meta_train_setup (P : Type) (eParams gParams dParams : List P) :
    TrainSetup P :=
  { networks := ["Embedder", "Generator", "Discriminator"]
    optimizer_E_G := { params := eParams ++ gParams, lr := config.LEARNING_RATE_E_G }
    optimizer_D := { params := dParams, lr := config.LEARNING_RATE_D } }

/-- Boolean discriminators over events, used to project traces. -/
def isStep : Event → Bool
  | Event.stepEG => true
  | Event.stepD => true
  | _ => false

def isSaveModel : Event → Bool
  | Event.saveModel _ _ => true
  | _ => false

def isImageEvent : Event → Bool
  | Event.saveImage _ _ _ => true
  | Event.mkdirGenerated => true
  | _ => false

def isCallD : Event → Bool
  | Event.callD _ => true
  | _ => false

def isCallLossEG : Event → Bool
  | Event.callLossEG _ => true
  | _ => false

/-- The checkpoint saves the spec describes for one epoch of `count` batches
starting at 0-based index `batch_num`: on every batch whose 1-based index is
a multiple of 2000, all three models are saved (not with the run-start
name). -/
def spec_checkpoint_saves : ℕ → ℕ → List Event
  | _, 0 => []
  | batch_num, count + 1 =>
      (if (batch_num + 1) % 2000 = 0 then
          [Event.saveModel "Embedder" false, Event.saveModel "Generator" false,
           Event.saveModel "Discriminator" false]
        else []) ++ spec_checkpoint_saves (batch_num + 1) count

/-- Whether a model is in training or evaluation mode. -/
inductive Mode where
  | train : Mode
  | eval : Mode
  deriving DecidableEq

/-- The mutable state of a torch module that `save_model` touches: its class
name, its train/eval mode, which device it is on, and its parameters. -/
structure ModelState where
  name : String
  mode : Mode
  onGpu : Bool
  params : List ℚ
  deriving DecidableEq

/-- Filesystem effects of `save_model`. -/
inductive FsEvent where
  | mkdir (dir : String) : FsEvent
  | write (path : String) (params : List ℚ) : FsEvent
  deriving DecidableEq

/-- `save_model` (`generate.py`, lines 159-182): put the model in eval mode,
move it to the CPU when a gpu is in use, create `MODELS_DIR` if missing,
serialize the state dict under `<ClassName>_<time>.pth` (the current time
unless `time_for_name` is given), move the model back to the GPU, and put it
back in training mode.  Returns the final model state, the filename used,
and the filesystem effects. -/
def save_model (model : ModelState) (gpu : Option ℕ)
    (time_for_name : Option String) (now : String)
    (models_dir_exists : Bool) : ModelState × String × List FsEvent :=
  let tname := time_for_name.getD now
  let model := { model with mode := Mode.eval }
  let model := if gpu.isSome then { model with onGpu := false } else model
  let dirEvents := if models_dir_exists then [] else [FsEvent.mkdir config.MODELS_DIR]
  let filename := model.name ++ "_" ++ tname ++ ".pth"
  let writeEvent := FsEvent.write (config.MODELS_DIR ++ "/" ++ filename) model.params
  let model := if gpu.isSome then { model with onGpu := true } else model
  let model := { model with mode := Mode.train }
  (model, filename, dirEvents ++ [writeEvent])

/-- A CHW image tensor indexed by channel, row, column. -/
abbrev Tensor3 : Type := ℕ → ℕ → ℕ → ℚ

/-- Per-channel standard deviations used by `save_image`. -/
def std_chan (c : ℕ) : ℚ := [(0.229 : ℚ), 0.224, 0.225].getD c 0

/-- Per-channel means used by `save_image`. -/
def mean_chan (c : ℕ) : ℚ := [(0.485 : ℚ), 0.456, 0.406].getD c 0

/-- One pixel of `save_image`'s output: denormalize with the channel's std
and mean, scale to 255, clip into `[0, 255]`, truncate to an unsigned 8-bit
integer. -/
def denormalize_pixel (c : ℕ) (v : ℚ) : ℕ :=
  (⌊max 0 (min 255 ((v * std_chan c + mean_chan c) * 255))⌋).toNat

/-- `save_image` (`generate.py`, lines 196-204): the computation runs on a
detached clone, so the first component — the caller's tensor after the call —
is the input unchanged; the written image, in HWC layout after the
`transpose(1, 2, 0)`, holds the denormalized clipped bytes. -/
def save_image (data : Tensor3) : Tensor3 × (ℕ → ℕ → ℕ → ℕ) :=
  (data, fun h w c => denormalize_pixel c (data c h w))

/-- The command-line arguments of `generate.py` after parsing, covering both
subcommands. -/
structure Args where
  subcommand : String
  source : String
  output : String
  size : ℕ
  ngpu : ℕ
  overwrite : Bool
  rf : ℕ
  dataset : String
  continue_id : Option String
  deriving DecidableEq

/-- The `dataset` subcommand's argparse declarations (`generate.py`,
lines 224-237): `--source` and `--output` are required, `--size` defaults
to 0, `--ngpu` to 0, `--rf` to 1, and `--overwrite` is a `store_true` flag,
false unless given. -/
def parse_dataset_args (source output : String) (size? ngpu? rf? : Option ℕ)
    (overwrite_flag : Bool) : Args :=
  { subcommand := "dataset"
    source := source
    output := output
    size := size?.getD 0
    ngpu := ngpu?.getD 0
    overwrite := overwrite_flag
    rf := rf?.getD 1
    dataset := ""
    continue_id := none }

/-- Observable effects of `main`'s dispatch (`generate.py`, lines 263-283):
the calls it makes with their full argument lists, what it prints, and what
it logs. -/
inductive MainEvent where
  | ranMetaTrain (device : String) (dataset_path : String)
      (continue_id : Option String) : MainEvent
  | ranPreprocess (source output device : String) (size : ℕ)
      (overwrite : Bool) (rf : ℕ) : MainEvent
  | printed (s : String) : MainEvent
  | loggedError (msg : String) : MainEvent
  deriving DecidableEq

/-- `main`'s execute block (`generate.py`, lines 263-283): dispatch on the
subcommand; an exception from `meta_train` or `preprocess_dataset` (modelled
as the `Except` outcome of the called function) is logged and then
re-raised. -/
def main_run (args : Args) (cuda_available : Bool)
    (train_result pre_result : Except String Unit) :
    List MainEvent × Except String Unit :=
  if args.subcommand = "meta-train" then
    let ev := MainEvent.ranMetaTrain
      (if cuda_available && 0 < args.ngpu then "cuda:0" else "cpu")
      args.dataset args.continue_id
    match train_result with
    | Except.ok _ => ([ev], Except.ok ())
    | Except.error e => ([ev, MainEvent.loggedError e], Except.error e)
  else if args.subcommand = "dataset" then
    let ev := MainEvent.ranPreprocess args.source args.output
      (if cuda_available && 0 < args.ngpu then "cuda" else "cpu")
      args.size args.overwrite args.rf
    match pre_result with
    | Except.ok _ => ([ev], Except.ok ())
    | Except.error e => ([ev, MainEvent.loggedError e], Except.error e)
  else
    ([MainEvent.printed "invalid command"], Except.ok ())

/-- Modelled from the spec: `preprocess_dataset` lives in `dataset.py`, which
is not among the sources; per the spec and the CLI help text of
`generate.py`, it walks the given videos and, when `overwrite` is false,
skips those that have already been pre-processed, processing everything when
`overwrite` is true.  A video is a name paired with whether it is already
pre-processed; the result lists the names actually processed. -/
def preprocess_dataset (videos : List (String × Bool)) (overwrite : Bool) :
    List String :=
  match videos with
  | [] => []
  | v :: rest =>
      if v.2 && !overwrite then preprocess_dataset rest overwrite
      else v.1 :: preprocess_dataset rest overwrite

/- Concrete fixtures used to instantiate the theorems below on closed
inputs. -/

/-- A concrete instance of the three networks: the embedder is constantly 1,
the generator echoes the landmark tensor, the discriminator and its
projection matrix are constantly 0. -/
def testNet : Networks :=
  { Efn := fun _ _ _ => 1
    Gfn := fun y _ => y
    Dfn := fun _ _ _ => (0, 0)
    W := fun _ _ => 0 }

/-- A two-frame video. -/
def testVideo : List FrameData :=
  [{ frame := [1], landmarks := [2] }, { frame := [3], landmarks := [4] }]

/-- The result of running batch 0 on `testVideo` as video 5 with the
generated-images directory present. -/
def testBatch : BatchResult :=
  { t := { frame := [3], landmarks := [4] }
    remaining := [{ frame := [1], landmarks := [2] }]
    e_hat := vecMean [testNet.Efn [1] [2]]
    x_hat := [4]
    wColumn := testNet.W 5
    events := batch_events 5 0 true [3] [4] }

/-- The result of running batch 99 on `testVideo` as video 5 with the
generated-images directory absent. -/
def testBatch99 : BatchResult :=
  { t := { frame := [3], landmarks := [4] }
    remaining := [{ frame := [1], landmarks := [2] }]
    e_hat := vecMean [testNet.Efn [1] [2]]
    x_hat := [4]
    wColumn := testNet.W 5
    events := batch_events 5 99 false [3] [4] }

/-- A concrete model state that starts in evaluation mode on the GPU. -/
def testModel : ModelState :=
  { name := "Embedder", mode := Mode.eval, onGpu := true, params := [1] }

/-- Parsed arguments carrying an unknown subcommand. -/
def testArgs : Args :=
  { subcommand := "other", source := "s", output := "o", size := 1, ngpu := 0,
    overwrite := false, rf := 1, dataset := "d", continue_id := none }

/- Helper lemmas shared by the claim theorems. -/

/-- Characterization of a successful `meta_train_batch`: the held-out frame
is the video's last, the remaining frames are all the others, the embedding
is their mean, the synthesized frame comes from the generator, the loss
receives the discriminator's column `i`, and the trace is `batch_events`. -/
lemma meta_train_batch_some {net : Networks} {i b : ℕ} {ex : Bool}
    {video : List FrameData} {r : BatchResult}
    (hr : meta_train_batch net i b ex video = some r) :
    video.getLast? = some r.t ∧ r.remaining = video.dropLast ∧
    r.remaining ≠ [] ∧
    r.e_hat = vecMean (r.remaining.map fun s => net.Efn s.frame s.landmarks) ∧
    r.x_hat = net.Gfn r.t.landmarks r.e_hat ∧ r.wColumn = net.W i ∧
    r.events = batch_events i b ex r.t.frame r.x_hat := by
  unfold meta_train_batch at hr
  split at hr
  · exact absurd hr (by simp)
  next t hls =>
    dsimp only at hr
    split at hr
    · exact absurd hr (by simp)
    next hne =>
      cases hr
      refine ⟨hls, rfl, ?_, rfl, rfl, rfl, rfl⟩
      intro h0
      dsimp only at h0
      rw [h0] at hne
      simp at hne

/-- A batch on a video of at least two frames does not raise. -/
lemma meta_train_batch_isSome (net : Networks) (i b : ℕ) (ex : Bool)
    {video : List FrameData} (h : 2 ≤ video.length) :
    (meta_train_batch net i b ex video).isSome := by
  rcases video.eq_nil_or_concat' with rfl | ⟨xs, t, rfl⟩
  · simp at h
  · have hxs : xs ≠ [] := by
      intro h0
      rw [h0] at h
      simp at h
    unfold meta_train_batch
    rw [List.getLast?_concat, List.dropLast_concat]
    cases xs with
    | nil => exact absurd rfl hxs
    | cons a as => simp

/-- The optimizer steps of one batch, in order. -/
lemma batch_events_filter_isStep (i b : ℕ) (ex : Bool) (x_t x_hat : Tensor) :
    (batch_events i b ex x_t x_hat).filter isStep
      = [Event.stepEG, Event.stepD, Event.stepD] := by
  simp [batch_events, List.filter_append, isStep,
    apply_ite (List.filter isStep)]

/-- The model checkpoints of one batch. -/
lemma batch_events_filter_isSaveModel (i b : ℕ) (ex : Bool) (x_t x_hat : Tensor) :
    (batch_events i b ex x_t x_hat).filter isSaveModel
      = if (b + 1) % 2000 = 0 then
          [Event.saveModel "Embedder" false, Event.saveModel "Generator" false,
           Event.saveModel "Discriminator" false]
        else [] := by
  simp [batch_events, List.filter_append, isSaveModel,
    apply_ite (List.filter isSaveModel)]

/-- The discriminator evaluations of one batch. -/
lemma batch_events_filter_isCallD (i b : ℕ) (ex : Bool) (x_t x_hat : Tensor) :
    (batch_events i b ex x_t x_hat).filter isCallD
      = [Event.callD i, Event.callD i, Event.callD i, Event.callD i] := by
  simp [batch_events, List.filter_append, isCallD,
    apply_ite (List.filter isCallD)]

/-- The embedder/generator loss evaluations of one batch. -/
lemma batch_events_filter_isCallLossEG (i b : ℕ) (ex : Bool) (x_t x_hat : Tensor) :
    (batch_events i b ex x_t x_hat).filter isCallLossEG = [Event.callLossEG i] := by
  simp [batch_events, List.filter_append, isCallLossEG,
    apply_ite (List.filter isCallLossEG)]

/-- The image-export effects of one batch. -/
lemma batch_events_filter_isImageEvent (i b : ℕ) (ex : Bool) (x_t x_hat : Tensor) :
    (batch_events i b ex x_t x_hat).filter isImageEvent
      = if (b + 1) % 100 = 0 then
          (if ex then [] else [Event.mkdirGenerated]) ++
          [Event.saveImage config.GENERATED_DIR "_x.png" x_t,
           Event.saveImage config.GENERATED_DIR "_x_hat.png" x_hat]
        else [] := by
  simp [batch_events, List.filter_append, isImageEvent,
    apply_ite (List.filter isImageEvent)]

/-- The model checkpoints of a run of batches are exactly the periodic ones
the spec describes. -/
lemma meta_train_batches_filter_isSaveModel (net : Networks) :
    ∀ (batches : List (ℕ × List FrameData)) (bn : ℕ) (ex : Bool),
      (∀ p ∈ batches, 2 ≤ p.2.length) →
      (meta_train_batches net bn ex batches).map (fun evs => evs.filter isSaveModel)
        = some (spec_checkpoint_saves bn batches.length) := by
  intro batches
  induction batches with
  | nil =>
      intro bn ex _
      simp [meta_train_batches, spec_checkpoint_saves]
  | cons p rest ih =>
      intro bn ex h
      obtain ⟨i, video⟩ := p
      have h1 : 2 ≤ video.length := h (i, video) (by simp)
      obtain ⟨r, hr⟩ := Option.isSome_iff_exists.mp
        (meta_train_batch_isSome net i bn ex h1)
      have hrest := ih (bn + 1) (ex || decide ((bn + 1) % 100 = 0))
        (fun q hq => h q (List.mem_cons_of_mem _ hq))
      obtain ⟨evs, hevs, hfil⟩ :
          ∃ evs, meta_train_batches net (bn + 1)
              (ex || decide ((bn + 1) % 100 = 0)) rest = some evs ∧
            evs.filter isSaveModel = spec_checkpoint_saves (bn + 1) rest.length := by
        cases hmb : meta_train_batches net (bn + 1)
            (ex || decide ((bn + 1) % 100 = 0)) rest with
        | none => rw [hmb] at hrest; simp at hrest
        | some evs =>
            rw [hmb] at hrest
            simp only [Option.map_some', Option.some.injEq] at hrest
            exact ⟨evs, rfl, hrest⟩
      obtain ⟨-, -, -, -, -, -, hev⟩ := meta_train_batch_some hr
      simp only [meta_train_batches, hr, hevs, Option.map_some', Option.some.injEq,
        List.length_cons]
      rw [List.filter_append, hev, batch_events_filter_isSaveModel, hfil,
        spec_checkpoint_saves]

/-- Claim C1: every training batch takes an optimizer step on the
embedder/generator parameters and separate optimizer steps on the
discriminator parameters, the two kinds alternating within the batch
(`stepEG` then `stepD`, then the discriminator-only `stepD`) rather than as
one combined simultaneous update of all networks. -/
theorem meta_train_batch_step_alternation (net : Networks) (i batch_num : ℕ)
    (dir_exists : Bool) (video : List FrameData) (r : BatchResult)
    (hr : meta_train_batch net i batch_num dir_exists video = some r) :
    r.events.filter isStep = [Event.stepEG, Event.stepD, Event.stepD] := by
  obtain ⟨-, -, -, -, -, -, hev⟩ := meta_train_batch_some hr
  rw [hev, batch_events_filter_isStep]

/-- Witness for claim C1 on `testVideo`. -/
theorem meta_train_batch_step_alternation_witness :
    testBatch.events.filter isStep = [Event.stepEG, Event.stepD, Event.stepD] :=
  meta_train_batch_step_alternation testNet 5 0 true testVideo testBatch rfl

/-- Claim C2: exactly one frame, the last, is removed from the video and
held out as the driving frame `t`; the identity embedding `e_hat` is the
arithmetic mean of the embedder's outputs over all remaining frames; and the
synthesized frame `x_hat` is the generator applied to `t`'s landmarks
together with `e_hat`. -/
theorem meta_train_batch_holdout_embedding (net : Networks) (i batch_num : ℕ)
    (dir_exists : Bool) (video : List FrameData) (r : BatchResult)
    (hr : meta_train_batch net i batch_num dir_exists video = some r) :
    video = r.remaining ++ [r.t] ∧
    r.remaining.length + 1 = video.length ∧
    r.e_hat = (fun j =>
      (r.remaining.map fun s => net.Efn s.frame s.landmarks j).sum
        / r.remaining.length) ∧
    r.x_hat = net.Gfn r.t.landmarks r.e_hat := by
  obtain ⟨hls, hrem, -, heh, hxh, -, -⟩ := meta_train_batch_some hr
  have hsplit : video = r.remaining ++ [r.t] := by
    rw [hrem]
    exact (List.dropLast_append_getLast? r.t hls).symm
  refine ⟨hsplit, ?_, ?_, hxh⟩
  · rw [hsplit]
    simp
  · rw [heh]
    funext j
    simp only [vecMean, List.map_map, List.length_map]
    rfl

/-- Witness for claim C2 on `testVideo`. -/
theorem meta_train_batch_holdout_embedding_witness :
    testVideo = testBatch.remaining ++ [testBatch.t] ∧
    testBatch.remaining.length + 1 = testVideo.length ∧
    testBatch.e_hat = (fun j =>
      (testBatch.remaining.map fun s => testNet.Efn s.frame s.landmarks j).sum
        / testBatch.remaining.length) ∧
    testBatch.x_hat = testNet.Gfn testBatch.t.landmarks testBatch.e_hat :=
  meta_train_batch_holdout_embedding testNet 5 0 true testVideo testBatch rfl

/-- Claim C3: `meta_train` constructs exactly the three networks Embedder,
Generator and Discriminator, and exactly two Adam optimizers: one over the
union of the embedder's and generator's parameters with learning rate
`LEARNING_RATE_E_G = 5e-5`, and one over the discriminator's parameters with
learning rate `LEARNING_RATE_D = 2e-4`. -/
theorem meta_train_setup_networks_optimizers (P : Type) (eParams gParams dParams : List P) :
    (meta_train_setup P eParams gParams dParams).networks
        = ["Embedder", "Generator", "Discriminator"] ∧
    (meta_train_setup P eParams gParams dParams).optimizer_E_G.params = eParams ++ gParams ∧
    (meta_train_setup P eParams gParams dParams).optimizer_E_G.lr = 5 / 100000 ∧
    (meta_train_setup P eParams gParams dParams).optimizer_D.params = dParams ∧
    (meta_train_setup P eParams gParams dParams).optimizer_D.lr = 2 / 10000 := by
  refine ⟨rfl, rfl, ?_, rfl, ?_⟩ <;>
    norm_num [meta_train_setup, config.LEARNING_RATE_E_G, config.LEARNING_RATE_D]

/-- Claim C4: in every training batch, all four discriminator evaluations
(on `x_hat` and on `x_t`, in both update phases) receive the identity index
`i` of the current video, and the embedder/generator loss receives the
discriminator's projection column for that same index `i`. -/
theorem meta_train_batch_identity_conditioning (net : Networks) (i batch_num : ℕ)
    (dir_exists : Bool) (video : List FrameData) (r : BatchResult)
    (hr : meta_train_batch net i batch_num dir_exists video = some r) :
    r.events.filter isCallD
        = [Event.callD i, Event.callD i, Event.callD i, Event.callD i] ∧
    r.events.filter isCallLossEG = [Event.callLossEG i] ∧
    r.wColumn = net.W i := by
  obtain ⟨-, -, -, -, -, hW, hev⟩ := meta_train_batch_some hr
  exact ⟨by rw [hev, batch_events_filter_isCallD],
    by rw [hev, batch_events_filter_isCallLossEG], hW⟩

/-- Witness for claim C4 on `testVideo` as video 5. -/
theorem meta_train_batch_identity_conditioning_witness :
    testBatch.events.filter isCallD
        = [Event.callD 5, Event.callD 5, Event.callD 5, Event.callD 5] ∧
    testBatch.events.filter isCallLossEG = [Event.callLossEG 5] ∧
    testBatch.wColumn = testNet.W 5 :=
  meta_train_batch_identity_conditioning testNet 5 0 true testVideo testBatch rfl

/-- Claim C5: checkpointing is periodic: over an epoch, all three models are
saved exactly on the batches whose 1-based index is a multiple of 2000, and
once more at the end of the epoch, where `save_model` is called with the
run's start time, which it puts in the checkpoint filename. -/
theorem meta_train_epoch_checkpointing (net : Networks) (ex : Bool)
    (batches : List (ℕ × List FrameData)) (m : ModelState) (gpu : Option ℕ)
    (run_start now : String) (models_dir_exists : Bool)
    (h : ∀ p ∈ batches, 2 ≤ p.2.length) :
    (meta_train_epoch net ex batches).map (fun evs => evs.filter isSaveModel)
      = some (spec_checkpoint_saves 0 batches.length ++
          [Event.saveModel "Embedder" true, Event.saveModel "Generator" true,
           Event.saveModel "Discriminator" true]) ∧
    (save_model m gpu (some run_start) now models_dir_exists).2.1
      = m.name ++ "_" ++ run_start ++ ".pth" := by
  constructor
  · have hb := meta_train_batches_filter_isSaveModel net batches 0 ex h
    cases hmb : meta_train_batches net 0 ex batches with
    | none => rw [hmb] at hb; simp at hb
    | some evs =>
        rw [hmb] at hb
        simp only [Option.map_some', Option.some.injEq] at hb
        simp only [meta_train_epoch, hmb, Option.map_some', Option.some.injEq]
        rw [List.filter_append, hb]
        simp [isSaveModel]
  · cases gpu <;> rfl

/-- Witness for claim C5 on a one-batch epoch. -/
theorem meta_train_epoch_checkpointing_witness :
    (meta_train_epoch testNet true [(5, testVideo)]).map
        (fun evs => evs.filter isSaveModel)
      = some (spec_checkpoint_saves 0 [(5, testVideo)].length ++
          [Event.saveModel "Embedder" true, Event.saveModel "Generator" true,
           Event.saveModel "Discriminator" true]) ∧
    (save_model testModel (some 0) (some "run") "now" true).2.1
      = testModel.name ++ "_" ++ "run" ++ ".pth" :=
  meta_train_epoch_checkpointing testNet true [(5, testVideo)] testModel (some 0)
    "run" "now" true (by decide)

/-- Claim C6: sample-image export is periodic: exactly on the batches whose
1-based index is a multiple of 100, both the real target frame `x_t` and the
generated frame `x_hat` are written as PNG images into `GENERATED_DIR`, the
directory being created first when it does not exist; no sample images are
written on any other batch. -/
theorem meta_train_batch_sample_image_export (net : Networks) (i batch_num : ℕ)
    (dir_exists : Bool) (video : List FrameData) (r : BatchResult)
    (hr : meta_train_batch net i batch_num dir_exists video = some r) :
    r.events.filter isImageEvent
      = if (batch_num + 1) % 100 = 0 then
          (if dir_exists then [] else [Event.mkdirGenerated]) ++
          [Event.saveImage config.GENERATED_DIR "_x.png" r.t.frame,
           Event.saveImage config.GENERATED_DIR "_x_hat.png" r.x_hat]
        else [] := by
  obtain ⟨-, -, -, -, -, -, hev⟩ := meta_train_batch_some hr
  rw [hev, batch_events_filter_isImageEvent]

/-- Witness for claim C6 on batch 99 (1-based index 100). -/
theorem meta_train_batch_sample_image_export_witness :
    testBatch99.events.filter isImageEvent
      = if (99 + 1) % 100 = 0 then
          (if false then [] else [Event.mkdirGenerated]) ++
          [Event.saveImage config.GENERATED_DIR "_x.png" testBatch99.t.frame,
           Event.saveImage config.GENERATED_DIR "_x_hat.png" testBatch99.x_hat]
        else [] :=
  meta_train_batch_sample_image_export testNet 5 99 false testVideo testBatch99 rfl

/-- Claim C7: the `dataset` subcommand invokes `preprocess_dataset` with the
user-supplied source and output paths, the requested size, the `rf` flag
defaulting to 1, and `overwrite` defaulting to false; with `overwrite` false
the already pre-processed videos are skipped, with it true none are. -/
theorem main_dataset_dispatch (source output : String) (size? ngpu? : Option ℕ)
    (cuda : Bool) (tr : Except String Unit) (videos : List (String × Bool)) :
    main_run (parse_dataset_args source output size? ngpu? none false) cuda tr
        (Except.ok ())
      = ([MainEvent.ranPreprocess source output
            (if cuda && 0 < ngpu?.getD 0 then "cuda" else "cpu")
            (size?.getD 0) false 1], Except.ok ()) ∧
    preprocess_dataset videos false = (videos.filter fun v => !v.2).map Prod.fst ∧
    preprocess_dataset videos true = videos.map Prod.fst := by
  refine ⟨rfl, ?_, ?_⟩
  · induction videos with
    | nil => rfl
    | cons v rest ih => cases hv : v.2 <;> simp [preprocess_dataset, hv, ih]
  · induction videos with
    | nil => rfl
    | cons v rest ih => cases hv : v.2 <;> simp [preprocess_dataset, hv, ih]

/-- Claim C8: `save_model` leaves no lasting side effect on the model: after
it returns, the model is in training mode (even if it was in evaluation mode
before), its parameter values are unchanged, and when a gpu is given the
model resides on the GPU again despite the move to the CPU for
serialization. -/
theorem save_model_no_lasting_side_effect (m : ModelState) (gpu : Option ℕ)
    (time_for_name : Option String) (now : String) (models_dir_exists : Bool) :
    (save_model m gpu time_for_name now models_dir_exists).1.mode = Mode.train ∧
    (save_model m gpu time_for_name now models_dir_exists).1.params = m.params ∧
    (gpu.isSome →
      (save_model m gpu time_for_name now models_dir_exists).1.onGpu = true) := by
  cases gpu <;> simp [save_model]

/-- Witness for claim C8 on a model that starts in evaluation mode. -/
theorem save_model_no_lasting_side_effect_witness :
    (save_model testModel (some 0) none "t" true).1.mode = Mode.train ∧
    (save_model testModel (some 0) none "t" true).1.params = testModel.params ∧
    ((some 0 : Option ℕ).isSome →
      (save_model testModel (some 0) none "t" true).1.onGpu = true) :=
  save_model_no_lasting_side_effect testModel (some 0) none "t" true

/-- Claim C9: `save_image` operates on a detached clone, so the caller's
tensor is unchanged after the call, and every pixel of the written image is
the denormalized value `(data * std + mean) * 255` clipped into `[0, 255]`
before truncation to an unsigned 8-bit integer, hence never exceeds 255. -/
theorem save_image_pure_and_byte_bounded (data : Tensor3) (h w c : ℕ) :
    (save_image data).1 = data ∧
    (save_image data).2 h w c
      = (⌊max 0 (min 255 ((data c h w * std_chan c + mean_chan c) * 255))⌋).toNat ∧
    (save_image data).2 h w c ≤ 255 := by
  refine ⟨rfl, rfl, ?_⟩
  have hle : (max 0 (min 255 ((data c h w * std_chan c + mean_chan c) * 255)) : ℚ)
      ≤ 255 := max_le (by norm_num) (min_le_left _ _)
  have hfloor : ⌊max 0 (min 255 ((data c h w * std_chan c + mean_chan c) * 255))⌋
      ≤ (255 : ℤ) := by
    calc ⌊max 0 (min 255 ((data c h w * std_chan c + mean_chan c) * 255))⌋
        ≤ ⌊(255 : ℚ)⌋ := Int.floor_le_floor hle
      _ = 255 := by norm_num
  exact Int.toNat_le.mpr hfloor

/-- Claim C10: `main` rejects unknown subcommands by printing
"invalid command" and running neither training nor preprocessing, and every
exception raised by `meta_train` or `preprocess_dataset` is logged and then
re-raised unchanged to the caller. -/
theorem main_error_handling (args : Args) (cuda : Bool)
    (tr pr : Except String Unit) (e e' : String)
    (h1 : args.subcommand ≠ "meta-train") (h2 : args.subcommand ≠ "dataset") :
    main_run args cuda tr pr = ([MainEvent.printed "invalid command"], Except.ok ()) ∧
    main_run { args with subcommand := "meta-train" } cuda (Except.error e) pr
      = ([MainEvent.ranMetaTrain (if cuda && 0 < args.ngpu then "cuda:0" else "cpu")
            args.dataset args.continue_id, MainEvent.loggedError e], Except.error e) ∧
    main_run { args with subcommand := "dataset" } cuda tr (Except.error e')
      = ([MainEvent.ranPreprocess args.source args.output
            (if cuda && 0 < args.ngpu then "cuda" else "cpu")
            args.size args.overwrite args.rf, MainEvent.loggedError e'],
         Except.error e') := by
  refine ⟨?_, ?_, ?_⟩ <;> simp [main_run, h1, h2]

/-- Witness for claim C10 on the unknown subcommand "other". -/
theorem main_error_handling_witness :
    main_run testArgs false (Except.ok ()) (Except.ok ())
      = ([MainEvent.printed "invalid command"], Except.ok ()) ∧
    main_run { testArgs with subcommand := "meta-train" } false
        (Except.error "boom") (Except.ok ())
      = ([MainEvent.ranMetaTrain
            (if false && 0 < testArgs.ngpu then "cuda:0" else "cpu")
            testArgs.dataset testArgs.continue_id, MainEvent.loggedError "boom"],
         Except.error "boom") ∧
    main_run { testArgs with subcommand := "dataset" } false
        (Except.ok ()) (Except.error "oops")
      = ([MainEvent.ranPreprocess testArgs.source testArgs.output
            (if false && 0 < testArgs.ngpu then "cuda" else "cpu")
            testArgs.size testArgs.overwrite testArgs.rf,
          MainEvent.loggedError "oops"], Except.error "oops") :=
  main_error_handling testArgs false (Except.ok ()) (Except.ok ()) "boom" "oops"
    (by decide) (by decide)

end TalkingHeads
